import Mathlib

/-!
Verification development for `scripts/T5_train.py` of the JAXSeq repository.

The script is a configuration-driven entry point for distributed T5
fine-tuning.  We shallowly embed the decision logic of `main` and of its
`evaluator` closure: the numpy device-mesh reshape, the pjit / non-pjit
bootstrap branch, the checkpoint-path resolution, the artifact-persistence
gating, the evaluator's PRNG-key derivation (JAX's threefry2x32-based
`jax.random.split`), and the argument wiring into `eval_loss`,
`generate_language` and `train_loop`.  Machine integers are modelled as
`Nat` with explicit reduction modulo `2^32` where the source uses uint32.
-/

namespace T5Train

/-! ## JAX PRNG: threefry2x32 and `jax.random.split`

`evaluator` (src lines 155-167) seeds its two sub-evaluations with
`jax.random.split` applied to `jax.random.PRNGKey(0)`.  JAX keys are pairs
of uint32; `split` runs the Threefry-2x32 block cipher (20 rounds, rotation
schedule [13,15,26,6] / [17,29,16,24], key-schedule constant 0x1BD11BDA)
over the counter block [0,1,2,3]. -/

/-- Reduce modulo `2^32`, the uint32 wrap-around used throughout JAX's PRNG. -/
def mask32 (x : Nat) : Nat := x % 4294967296

/-- Rotate a uint32 value left by `r` bits (`r < 32`, `x < 2^32`). -/
def rotl32 (x r : Nat) : Nat := mask32 (x * 2 ^ r) + x / 2 ^ (32 - r)

/-- One Threefry mix round: `v0 += v1; v1 = rotl(v1, r); v1 ^= v0`. -/
def threefryRound (v : Nat × Nat) (r : Nat) : Nat × Nat :=
  let x0 := mask32 (v.1 + v.2)
  (x0, x0 ^^^ rotl32 v.2 r)

/-- Four consecutive mix rounds with the given rotation amounts. -/
def threefryRounds (v : Nat × Nat) (rs : List Nat) : Nat × Nat :=
  rs.foldl threefryRound v

/-- Key injection after each group of four rounds: `(v0 + a, v1 + b + i)`. -/
def threefryInject (v : Nat × Nat) (a b i : Nat) : Nat × Nat :=
  (mask32 (v.1 + a), mask32 (v.2 + b + i))

/-- The Threefry-2x32 block cipher with 20 rounds, as implemented by JAX's
`threefry2x32` primitive: initial key injection, then five groups of four
rounds, alternating rotation schedules, with the rotating key schedule
`[k0, k1, k2]` where `k2 = k0 ^^^ k1 ^^^ 0x1BD11BDA`. -/
def threefry2x32 (key x : Nat × Nat) : Nat × Nat :=
  let k0 := key.1
  let k1 := key.2
  let k2 := k0 ^^^ k1 ^^^ 0x1BD11BDA
  let rot0 : List Nat := [13, 15, 26, 6]
  let rot1 : List Nat := [17, 29, 16, 24]
  let v := (mask32 (x.1 + k0), mask32 (x.2 + k1))
  let v := threefryInject (threefryRounds v rot0) k1 k2 1
  let v := threefryInject (threefryRounds v rot1) k2 k0 2
  let v := threefryInject (threefryRounds v rot0) k0 k1 3
  let v := threefryInject (threefryRounds v rot1) k1 k2 4
  threefryInject (threefryRounds v rot0) k2 k0 5

/-- `jax.random.PRNGKey(seed)`: the seed's upper and lower 32 bits. -/
def prngKey (seed : Nat) : Nat × Nat :=
  (mask32 (seed / 4294967296), mask32 seed)

/-- `jax.random.split(key)` (default `num=2`): encrypt the counter block
`[0,1,2,3]` laid out as two lanes `(0,2)` and `(1,3)`, then regroup the
four output words into two new keys (row-major over first output words,
then second output words). -/
def jaxSplit (key : Nat × Nat) : (Nat × Nat) × (Nat × Nat) :=
  let a := threefry2x32 key (0, 2)
  let b := threefry2x32 key (1, 3)
  ((a.1, b.1), (a.2, b.2))

/-! ## Evaluator PRNG-key derivation (src lines 155-167)

The `evaluator` closure begins every call with `rng = jax.random.PRNGKey(0)`
and then performs `rng, new_rng = jax.random.split(rng)` twice: the first
`new_rng` seeds `eval_loss`, the second seeds `generate_language`.  The
closure holds no counter or other mutable seeding state, so the base key is
the same on every call; the invocation index is made an explicit argument
here to let cross-invocation properties be stated. -/

/-- Base PRNG key drawn at the start of the `invocation`-th call of
`evaluator` within a run: always `PRNGKey(0)` (src line 156), independent
of the invocation index. -/
def evaluatorBaseSeed (_invocation : Nat) : Nat × Nat := prngKey 0

/-- The carried `rng` after the first `split` in `evaluator` (src line 158). -/
def evaluatorRng1 (invocation : Nat) : Nat × Nat :=
  (jaxSplit (evaluatorBaseSeed invocation)).1

/-- The key passed as `rng` to `eval_loss` (src lines 158-162): the second
output key of the first `split`. -/
def evaluatorLossSeed (invocation : Nat) : Nat × Nat :=
  (jaxSplit (evaluatorBaseSeed invocation)).2

/-- The key passed as `rng` to `generate_language` (src lines 167-172): the
second output key of the second `split`. -/
def evaluatorGenSeed (invocation : Nat) : Nat × Nat :=
  (jaxSplit (evaluatorRng1 invocation)).2

/-! ## Device-mesh construction (src lines 119-126)

`np.array(jax.devices()).reshape(data_p_shape, model_p_shape)` followed by
`Mesh(mesh_devices, ("dp", "mp"))` when `do_pjit`, else
`contextlib.nullcontext()`.  The shape arguments are Python ints, so numpy's
reshape semantics apply in full: a dimension equal to `-1` is inferred when
the other dimension divides the element count, any dimension below `-1` (or
two `-1`s, or a non-matching product) raises `ValueError`. -/

/-- numpy's `ndarray.reshape(a, b)` on a 1-D array of `n` elements:
`some (rows, cols)` on success, `none` when numpy raises `ValueError`. -/
def reshape2 (n : Nat) (a b : Int) : Option (Nat × Nat) :=
  if a < -1 ∨ b < -1 then none
  else if a = -1 ∧ b = -1 then none
  else if a = -1 then
    if 0 < b ∧ b.toNat ∣ n then some (n / b.toNat, b.toNat) else none
  else if b = -1 then
    if 0 < a ∧ a.toNat ∣ n then some (a.toNat, n / a.toNat) else none
  else if a.toNat * b.toNat = n then some (a.toNat, b.toNat)
  else none

/-- The scope entered around `train_loop` (src lines 119-126, 207): a real
2-D device mesh when `do_pjit`, else `contextlib.nullcontext()`. -/
inductive MeshScope where
  | mesh (shape : Nat × Nat)
  | nullcontext
  deriving DecidableEq, Repr

/-- Mesh construction in `main` (src lines 119-126): with `do_pjit` the
available devices are reshaped to `(data_p_shape, model_p_shape)` (failure
of the reshape is `none`); without `do_pjit` a no-op context stands in. -/
def buildMeshScope (do_pjit : Bool) (numDevices : Nat)
    (data_p_shape model_p_shape : Int) : Option MeshScope :=
  if do_pjit then (reshape2 numDevices data_p_shape model_p_shape).map .mesh
  else some .nullcontext

/-- Number of device slots of a constructed mesh (the no-op context has none). -/
def MeshScope.slots : MeshScope → Nat
  | .mesh s => s.1 * s.2
  | .nullcontext => 0

/-! ## Path handling -/

/-- `as` is a prefix of `bs`, as a computable character-list check. -/
def listPrefixEq : List Char → List Char → Bool
  | [], _ => true
  | _ :: _, [] => false
  | a :: as, b :: bs => a == b && listPrefixEq as bs

/-- Python's `str.startswith`. -/
def strStartsWith (s pre : String) : Bool := listPrefixEq pre.data s.data

/-- Python's `str.endswith`. -/
def strEndsWith (s suffix : String) : Bool :=
  listPrefixEq suffix.data.reverse s.data.reverse

/-- `os.path.join(p, x)` (posix), for a relative second component `x`:
separators are inserted only when needed. -/
def pathJoin (p x : String) : String :=
  if p = "" then x
  else if strEndsWith p "/" then p ++ x
  else p ++ "/" ++ x

/-- Modelled from the spec: `utils.path.convert_path` is not among the
sources (only `scripts/T5_train.py` is); the spec describes the storage
layer as a path abstraction that transparently supports local and remote
(`gcs://`) locations, so path conversion is modelled as the identity. -/
def convert_path (p : String) : String := p

/-- The name of the per-process shard component, `'shard_%d' % i`. -/
def shardComponent (i : Nat) : String := "shard_" ++ toString i

/-! ## Checkpoint-path resolution (src lines 97-106)

`load_t5_model` receives
`os.path.join(checkpoint_path, 'shard_%d' % jax.process_index())` when
`checkpoint_is_sharded`, else `checkpoint_path` unchanged.  With the
defaults (`checkpoint_path=None`, `checkpoint_is_sharded=True`) the join is
applied to `None` and Python raises a `TypeError` while evaluating the
argument, before `load_t5_model` is entered. -/

/-- The `checkpoint_path` argument handed to `load_t5_model`:
`.error` models the `TypeError` raised by `os.path.join(None, ...)`. -/
def resolveCheckpointPath (checkpoint_path : Option String)
    (checkpoint_is_sharded : Bool) (processIndex : Nat) :
    Except String (Option String) :=
  if checkpoint_is_sharded then
    match checkpoint_path with
    | none => .error "TypeError: expected str, not NoneType"
    | some p => .ok (some (pathJoin p (shardComponent processIndex)))
  else .ok checkpoint_path

/-! ## The invocation surface of `main` (src lines 22-65)

All options of `main`, with the source's defaults.  The two float
hyperparameters `lr` and `weight_decay` are passed through to `optax.adamw`
untouched and appear in no claim; they are omitted from the record to keep
the embedding free of floating point. -/

/-- The arguments of `main`.  `exp_name`, `model_name` and `data_json_path`
are positional (no default); every other field's default is the source's. -/
structure MainArgs where
  exp_name : Option String
  model_name : String
  data_json_path : String
  checkpoint_path : Option String := none
  checkpoint_is_sharded : Bool := true
  outputs_path : Option String := some "outputs/T5_train"
  use_wandb : Bool := false
  wandb_project : Option String := none
  do_pjit : Bool := true
  model_p_shape : Int := 1
  data_p_shape : Int := 1
  epochs : Nat := 1
  max_steps : Option Nat := none
  train_bsize : Nat := 16
  grad_accum_steps : Nat := 1
  gradient_checkpoint : Bool := true
  max_input_length : Nat := 512
  max_output_length : Nat := 512
  trunc_inputs_last : Bool := true
  trunc_outputs_last : Bool := true
  log_every : Nat := 256
  eval_every : Nat := 256
  inference_bsize : Nat := 32
  inference_do_sample : Bool := true
  gcloud_project : Option String := none
  deriving DecidableEq, Repr

/-- `main`'s arguments when only the three positional ones are supplied. -/
def mainDefaults (exp_name : Option String) (model_name data_json_path : String) :
    MainArgs :=
  { exp_name, model_name, data_json_path }

/-- Arguments of `Seq2SeqDataset.from_str_list` that shape an example
(src lines 79-95): length bounds and truncation direction per side. -/
structure DatasetBuildArgs where
  max_input_length : Nat
  max_output_length : Nat
  trunc_inputs_last : Bool
  trunc_outputs_last : Bool
  deriving DecidableEq, Repr

/-- The build arguments used for the train split (src lines 79-86); the
eval split (src lines 88-95) uses the identical values. -/
def datasetBuildArgs (cfg : MainArgs) : DatasetBuildArgs :=
  { max_input_length := cfg.max_input_length
    max_output_length := cfg.max_output_length
    trunc_inputs_last := cfg.trunc_inputs_last
    trunc_outputs_last := cfg.trunc_outputs_last }

/-! ## `load_t5_model` call (src lines 97-106) -/

/-- The identifying arguments `main` passes to `load_t5_model`; the
checkpoint path has already been resolved by `resolveCheckpointPath`. -/
structure LoadModelArgs where
  model_str : String
  checkpoint_path : Option String
  deriving DecidableEq, Repr

/-- The model-loading step of `main` (src lines 97-106): the checkpoint
argument is evaluated first, so its `TypeError` (sharded layout with
`checkpoint_path=None`) aborts before `load_t5_model` runs. -/
def loadModelPhase (cfg : MainArgs) (processIndex : Nat) :
    Except String LoadModelArgs :=
  (resolveCheckpointPath cfg.checkpoint_path cfg.checkpoint_is_sharded
    processIndex).map
    fun ckpt => { model_str := cfg.model_name, checkpoint_path := ckpt }

/-! ## Sharding bootstrap and factory wiring (src lines 128-153) -/

/-- The `(state, spec)` quadruple produced by the pjit / non-pjit branch of
`main` (src lines 128-134): `P` = parameter pytrees, `O` = optimizer
states, `S` = partition specs. -/
structure ShardedState (P O S : Type) where
  params : P
  param_spec : Option S
  optim_state : O
  optim_state_spec : Option S

/-- The branch at src lines 128-134: with `do_pjit`,
`shard_optim_and_params` repartitions the parameters and builds the sharded
optimizer state together with both partition specs; without it, the
optimizer state is `optim.init(params)` on the unsharded parameters and
both specs are `None`.  The two collaborator functions (from the `shard`
module, not among the sources) are abstract arguments. -/
def shardBootstrap {P O S : Type} (do_pjit : Bool) (params : P)
    (optimInit : P → O)
    (shard_optim_and_params : P → (P × S) × (O × S)) : ShardedState P O S :=
  if do_pjit then
    let r := shard_optim_and_params params
    { params := r.1.1, param_spec := some r.1.2
      optim_state := r.2.1, optim_state_spec := some r.2.2 }
  else
    { params := params, param_spec := none
      optim_state := optimInit params, optim_state_spec := none }

/-- The arguments `main` threads into `load_enc_dec_trainer`
(src lines 136-145). -/
structure TrainerFactoryArgs (P O S : Type) where
  params : P
  param_spec : Option S
  optim_state : O
  optim_state_spec : Option S
  do_pjit : Bool

/-- The arguments `main` threads into `load_enc_dec_inference`
(src lines 147-153). -/
structure InferenceFactoryArgs (P S : Type) where
  params : P
  param_spec : Option S
  do_pjit : Bool

/-- Trainer-factory wiring (src lines 136-145): the fields come verbatim
from the bootstrap result. -/
def trainerFactoryArgs {P O S : Type} (do_pjit : Bool)
    (st : ShardedState P O S) : TrainerFactoryArgs P O S :=
  { params := st.params, param_spec := st.param_spec
    optim_state := st.optim_state, optim_state_spec := st.optim_state_spec
    do_pjit }

/-- Inference-factory wiring (src lines 147-153): the fields come verbatim
from the bootstrap result. -/
def inferenceFactoryArgs {P O S : Type} (do_pjit : Bool)
    (st : ShardedState P O S) : InferenceFactoryArgs P S :=
  { params := st.params, param_spec := st.param_spec, do_pjit }

/-! ## Batched evaluation (call at src lines 159-165)

`eval_loss` itself lives in `seq2seq_train`, which is not among the
sources; `evaluator` calls it with the full tokenized eval dataset,
`bsize=inference_bsize` and `eval_batches=None`. -/

/-- Split a list into consecutive chunks of `b` elements (the last chunk
may be shorter).  A batch size of `0` behaves as `1`. -/
def listChunks {α : Type} (b : Nat) : List α → List (List α)
  | [] => []
  | x :: xs => (x :: xs.take (b - 1)) :: listChunks b (xs.drop (b - 1))
  termination_by l => l.length
  decreasing_by simp; omega

/-- Modelled from the spec: `seq2seq_train.eval_loss` is not among the
sources.  Per the spec it iterates over the dataset in batches of `bsize`,
stopping after `eval_batches` batches when that is set and visiting every
batch when it is `None`.  This returns the examples the loss pass visits,
in order. -/
def evalLossVisited {α : Type} (dataset : List α) (bsize : Nat)
    (eval_batches : Option Nat) : List α :=
  (match eval_batches with
    | none => listChunks bsize dataset
    | some k => (listChunks bsize dataset).take k).flatten

/-! ## The `evaluator` closure (src lines 155-185) -/

/-- One record of the raw data JSON: `{'in_text': ..., 'out_text': ...}`. -/
structure RawExample where
  in_text : String
  out_text : String
  deriving DecidableEq, Repr

/-- The arguments `evaluator` passes to `eval_loss` (src lines 159-165);
`τ` is the type of tokenized dataset examples. -/
structure LossCallArgs (τ : Type) where
  dataset : List τ
  rng : Nat × Nat
  bsize : Nat
  eval_batches : Option Nat

/-- The arguments `evaluator` passes to `generate_language`
(src lines 168-182). -/
structure GenCallArgs where
  prompts : List String
  references : List (List String)
  rng : Nat × Nat
  bsize : Nat
  eval_batches : Option Nat
  max_input_length : Nat
  max_output_length : Nat
  in_str_preproc : Option (String → String)
  out_str_postproc : Option (String → String)
  max_length : Nat
  do_sample : Bool
  num_beams : Nat

/-- The structured report `evaluator` returns alongside the scalar loss
(src line 185): `{'loss_metrics': ..., 'reference_metrics': ...}`. -/
structure EvalReport (L M : Type) where
  loss_metrics : L
  reference_metrics : M

/-- An `evaluator` call, fully recorded: the two collaborator calls it
makes and the value it returns. -/
structure EvaluatorRun (τ L M V : Type) where
  lossCall : LossCallArgs τ
  genCall : GenCallArgs
  result : V × EvalReport L M

/-- The `evaluator` closure (src lines 155-185), one invocation.  The
collaborators `eval_loss`, `generate_language` (returning generation data
of abstract type `G`) and `compute_metrics` live in modules not among the
sources and are abstract arguments; `lossOf` models the `['loss']` lookup
on the loss-metrics dictionary.  `raw_eval_data` and `eval_data` are the
untokenized and tokenized eval splits captured by the closure, and
`invocation` counts the calls within the run (the closure itself carries no
such counter: its PRNG derivation ignores it, see `evaluatorBaseSeed`). -/
def evaluatorModel {τ L G M V : Type} (cfg : MainArgs)
    (raw_eval_data : List RawExample) (eval_data : List τ) (invocation : Nat)
    (eval_loss : LossCallArgs τ → L) (lossOf : L → V)
    (generate_language : GenCallArgs → G) (compute_metrics : G → M) :
    EvaluatorRun τ L M V :=
  let lossCall : LossCallArgs τ :=
    { dataset := eval_data
      rng := evaluatorLossSeed invocation
      bsize := cfg.inference_bsize
      eval_batches := none }
  let loss_metrics := eval_loss lossCall
  let genCall : GenCallArgs :=
    { prompts := raw_eval_data.map (·.in_text)
      references := raw_eval_data.map fun x => [x.out_text]
      rng := evaluatorGenSeed invocation
      bsize := cfg.inference_bsize
      eval_batches := none
      max_input_length := cfg.max_input_length
      max_output_length := cfg.max_output_length
      in_str_preproc := none
      out_str_postproc := none
      max_length := cfg.max_output_length
      do_sample := cfg.inference_do_sample
      num_beams := 1 }
  let reference_metrics := compute_metrics (generate_language genCall)
  { lossCall := lossCall
    genCall := genCall
    result := (lossOf loss_metrics, ⟨loss_metrics, reference_metrics⟩) }

/-! ## Run-artifact persistence (src lines 187-204) -/

/-- A physical accelerator device as seen through JAX: its `id` and the
index of the process that owns it. -/
structure Device where
  id : Nat
  process_index : Nat
  deriving DecidableEq, Repr

/-- One artifact written under `save_dir`, with its payload:
`config.py` (the launching script's content), `input_args.pkl` (every
input argument), and `system_mesh.pkl` (per-device `(id, process_index)`
in mesh layout, plus this process's index and the process count). -/
inductive Artifact where
  | configScript (content : String)
  | inputArgsPickle (args : MainArgs)
  | systemMeshPickle (mesh : List (List (Nat × Nat)))
      (process_index process_count : Nat)
  deriving DecidableEq, Repr

/-- The observable outcome of the persistence block (src lines 187-204). -/
structure PersistResult where
  save_dir : Option String
  dirCreated : Bool
  artifacts : List Artifact
  deriving DecidableEq, Repr

/-- The persistence block of `main` (src lines 187-204).  When both
`exp_name` and `outputs_path` are set, `save_dir` is
`convert_path(os.path.join(outputs_path, exp_name, 'shard_%d' % i))`;
`os.makedirs` runs only for a non-`gcs://` path that does not yet exist;
the script copy and the input-argument pickle are always written, the mesh
topology pickle only when `do_pjit`.  When either is unset the whole block
is skipped. -/
def persistRunArtifacts (cfg : MainArgs) (scriptContent : String)
    (meshDevices : List (List Device)) (processIndex processCount : Nat)
    (pathExists : String → Bool) : PersistResult :=
  match cfg.exp_name, cfg.outputs_path with
  | some e, some o =>
      let d := convert_path (pathJoin (pathJoin o e) (shardComponent processIndex))
      { save_dir := some d
        dirCreated := !(strStartsWith d "gcs://") && !(pathExists d)
        artifacts :=
          [.configScript scriptContent, .inputArgsPickle cfg] ++
            if cfg.do_pjit then
              [.systemMeshPickle
                (meshDevices.map (·.map fun x => (x.id, x.process_index)))
                processIndex processCount]
            else [] }
  | _, _ => { save_dir := none, dirCreated := false, artifacts := [] }

/-! ## The `train_loop` call (src lines 206-230) -/

/-- The schedule and checkpoint-retention arguments `main` passes to
`train_loop`. -/
structure TrainLoopArgs where
  epochs : Nat
  max_steps : Option Nat
  bsize : Nat
  log_every : Nat
  eval_every : Nat
  save_every : Option Nat
  save_at_end : Bool
  save_best : Bool
  max_checkpoints : Option Nat
  use_wandb : Bool
  wandb_project : Option String
  wandb_run_name : Option String
  gcloud_project : Option String
  deriving DecidableEq, Repr

/-- The `train_loop` call (src lines 208-230): the schedule comes from the
configuration, while the checkpoint-retention policy is hard-coded
(`save_every=None`, `save_at_end=False`, `save_best=True`,
`max_checkpoints=None`). -/
def trainLoopCall (cfg : MainArgs) : TrainLoopArgs :=
  { epochs := cfg.epochs
    max_steps := cfg.max_steps
    bsize := cfg.train_bsize
    log_every := cfg.log_every
    eval_every := cfg.eval_every
    save_every := none
    save_at_end := false
    save_best := true
    max_checkpoints := none
    use_wandb := cfg.use_wandb
    wandb_project := cfg.wandb_project
    wandb_run_name := cfg.exp_name
    gcloud_project := cfg.gcloud_project }

/-! ## Helper lemmas -/

/-- Flattening the chunks of a list restores the list: batched iteration
without a batch cap visits every element exactly once, in order. -/
theorem listChunks_flatten {α : Type} (b : Nat) :
    ∀ l : List α, (listChunks b l).flatten = l
  | [] => by simp [listChunks]
  | x :: xs => by
      rw [listChunks]
      simp only [List.flatten_cons]
      rw [listChunks_flatten b (xs.drop (b - 1))]
      simp
  termination_by l => l.length
  decreasing_by simp; omega

/-- On nonnegative (natural) shape arguments, numpy's 2-D reshape is the
plain product check: it succeeds with the requested shape exactly when the
product matches the element count. -/
theorem reshape2_ofNat (n a b : Nat) :
    reshape2 n a b = if a * b = n then some (a, b) else none := by
  unfold reshape2
  have h1 : ¬(((a : Int) < -1) ∨ ((b : Int) < -1)) := by omega
  have h2 : ¬(((a : Int) = -1) ∧ ((b : Int) = -1)) := by omega
  have h3 : ¬((a : Int) = -1) := by omega
  have h4 : ¬((b : Int) = -1) := by omega
  rw [if_neg h1, if_neg h2, if_neg h3, if_neg h4]
  simp

/-- Cross-check of the PRNG embedding against the publicly known value of
`jax.random.split(jax.random.PRNGKey(0))`. -/
theorem jaxSplit_prngKey_zero :
    jaxSplit (prngKey 0) =
      ((4146024105, 967050713), (2718843009, 1272950319)) := by
  decide

/-! ## Claims -/

/-- C1 counterexample: the claim says that with `do_pjit=true` mesh
construction fails whenever `data_p_shape × model_p_shape` differs from the
device count.  At `data_p_shape = -1`, `model_p_shape = 2` with 2 available
devices the product is `-2 ≠ 2`, yet numpy's reshape infers the `-1`
dimension and construction succeeds with a `1 × 2` mesh. -/
theorem C1_neg_shape_counterexample :
    buildMeshScope true 2 (-1) 2 = some (.mesh (1, 2)) ∧
    ¬((-1 : Int) * 2 = (2 : Nat)) := by
  constructor
  · decide
  · decide

/-- C1 (amended): for `do_pjit=true` and nonnegative shape arguments, mesh
construction succeeds — with exactly `data_p_shape × model_p_shape` device
slots — precisely when that product equals the device count, and fails
(`ValueError` from the reshape, modelled as `none`) otherwise; moreover any
successfully constructed mesh has exactly as many slots as there are
devices. -/
theorem C1_mesh_shape (n : Nat) (a b : Int) (ha : 0 ≤ a) (hb : 0 ≤ b) :
    (a * b = n ↔
      buildMeshScope true n a b = some (.mesh (a.toNat, b.toNat))) ∧
    (¬(a * b = n) → buildMeshScope true n a b = none) ∧
    (∀ m, buildMeshScope true n a b = some m → m.slots = n) := by
  lift a to Nat using ha with a'
  lift b to Nat using hb with b'
  have hcast : ((a' : Int) * (b' : Int) = (n : Int)) ↔ a' * b' = n := by
    exact_mod_cast Iff.rfl
  unfold buildMeshScope
  simp only [if_pos rfl]
  rw [show ((a' : Int)).toNat = a' from Int.toNat_natCast a',
      show ((b' : Int)).toNat = b' from Int.toNat_natCast b',
      reshape2_ofNat n a' b']
  refine ⟨?_, ?_, ?_⟩
  · rw [hcast]
    by_cases h : a' * b' = n
    · simp [h]
    · simp [h]
  · rw [hcast]
    intro h
    simp [h]
  · intro m hm
    by_cases h : a' * b' = n
    · simp only [h, if_pos rfl, Option.map_some] at hm
      cases hm
      simpa [MeshScope.slots] using h
    · simp [h] at hm

/-- C1 witness: with 4 devices, shape `2 × 2` succeeds and `3 × 2` fails. -/
theorem C1_mesh_shape_witness :
    buildMeshScope true 4 2 2 = some (.mesh (2, 2)) ∧
    buildMeshScope true 4 3 2 = none := by
  constructor
  · exact ((C1_mesh_shape 4 2 2 (by decide) (by decide)).1).mp (by decide)
  · exact (C1_mesh_shape 4 3 2 (by decide) (by decide)).2.1 (by decide)

/-- C3 counterexample: the claim says two successive evaluator invocations
use different base seeds.  The closure re-creates `PRNGKey(0)` on every
call, so invocations 0 and 1 share the base seed and both derived seeds. -/
theorem C3_fixed_seed_counterexample :
    evaluatorBaseSeed 0 = evaluatorBaseSeed 1 ∧
    evaluatorBaseSeed 0 = prngKey 0 ∧
    evaluatorLossSeed 0 = evaluatorLossSeed 1 ∧
    evaluatorGenSeed 0 = evaluatorGenSeed 1 :=
  ⟨rfl, rfl, rfl, rfl⟩

/-- C3 (amended): each evaluator invocation initializes its base seed to
the constant `PRNGKey(0)` rather than drawing from a process-wide counter;
every two invocations within a run use the same base seed and derive
identical loss and generation seeds, so repeated evaluations are forced to
produce identical random draws. -/
theorem C3_base_seed_constant (j k : Nat) :
    evaluatorBaseSeed j = evaluatorBaseSeed k ∧
    evaluatorBaseSeed j = prngKey 0 ∧
    evaluatorLossSeed j = evaluatorLossSeed k ∧
    evaluatorGenSeed j = evaluatorGenSeed k :=
  ⟨rfl, rfl, rfl, rfl⟩

/-- C8: within any single evaluator invocation, the seed handed to
`eval_loss`, the seed handed to `generate_language`, and the base seed are
pairwise distinct (computed through the threefry2x32 splits from the fixed
base key `PRNGKey(0)`). -/
theorem C8_sub_seed_distinct (k : Nat) :
    evaluatorLossSeed k ≠ evaluatorGenSeed k ∧
    evaluatorLossSeed k ≠ evaluatorBaseSeed k ∧
    evaluatorGenSeed k ≠ evaluatorBaseSeed k := by
  have hL : evaluatorLossSeed k = evaluatorLossSeed 0 := rfl
  have hG : evaluatorGenSeed k = evaluatorGenSeed 0 := rfl
  have hB : evaluatorBaseSeed k = evaluatorBaseSeed 0 := rfl
  rw [hL, hG, hB]
  refine ⟨?_, ?_, ?_⟩ <;> decide

/-- C2: the evaluator's loss pass is invoked with `eval_batches=None` on
the full tokenized eval dataset in batches of `inference_bsize`; with a
positive batch size the visited examples are exactly the dataset, in
order — every example is visited exactly once per evaluation cycle,
regardless of dataset size and batch size. -/
theorem C2_eval_loss_full_pass {τ L G M V : Type} (cfg : MainArgs)
    (raw : List RawExample) (eval_data : List τ) (k : Nat)
    (el : LossCallArgs τ → L) (lo : L → V) (gl : GenCallArgs → G)
    (cm : G → M) (_hbsize : 0 < cfg.inference_bsize) :
    (evaluatorModel cfg raw eval_data k el lo gl cm).lossCall.eval_batches
        = none ∧
    (evaluatorModel cfg raw eval_data k el lo gl cm).lossCall.dataset
        = eval_data ∧
    (evaluatorModel cfg raw eval_data k el lo gl cm).lossCall.bsize
        = cfg.inference_bsize ∧
    evalLossVisited
        (evaluatorModel cfg raw eval_data k el lo gl cm).lossCall.dataset
        (evaluatorModel cfg raw eval_data k el lo gl cm).lossCall.bsize
        (evaluatorModel cfg raw eval_data k el lo gl cm).lossCall.eval_batches
      = eval_data := by
  refine ⟨rfl, rfl, rfl, ?_⟩
  unfold evalLossVisited
  exact listChunks_flatten _ _

/-- C2 witness: a 5-example dataset under the default batch size of 32. -/
theorem C2_eval_loss_full_pass_witness :
    0 < (mainDefaults (some "e") "m" "d").inference_bsize ∧
    evalLossVisited
        (evaluatorModel (mainDefaults (some "e") "m" "d") [] [0, 1, 2, 3, 4]
          0 (fun _ => (0 : Nat)) id (fun _ => (0 : Nat)) id).lossCall.dataset
        (evaluatorModel (mainDefaults (some "e") "m" "d") [] [0, 1, 2, 3, 4]
          0 (fun _ => (0 : Nat)) id (fun _ => (0 : Nat)) id).lossCall.bsize
        (evaluatorModel (mainDefaults (some "e") "m" "d") [] [0, 1, 2, 3, 4]
          0 (fun _ => (0 : Nat)) id (fun _ => (0 : Nat)) id).lossCall.eval_batches
      = [0, 1, 2, 3, 4] :=
  ⟨by decide,
   (C2_eval_loss_full_pass (mainDefaults (some "e") "m" "d") [] [0, 1, 2, 3, 4]
     0 (fun _ => (0 : Nat)) id (fun _ => (0 : Nat)) id (by decide)).2.2.2⟩

/-- C4 counterexample: the claim says that whenever both `exp_name` and
`outputs_path` are set, the per-run per-shard directory is created when it
does not already exist.  With a remote `gcs://` output root the directory
does not exist (the existence oracle returns `false` on every path), the
artifacts are written, yet `os.makedirs` is skipped and no directory is
created. -/
theorem C4_gcs_counterexample :
    (persistRunArtifacts
        { mainDefaults (some "myexp") "m" "d" with
            outputs_path := some "gcs://bucket/out" }
        "script" [] 0 1 (fun _ => false)).save_dir
      = some "gcs://bucket/out/myexp/shard_0" ∧
    (persistRunArtifacts
        { mainDefaults (some "myexp") "m" "d" with
            outputs_path := some "gcs://bucket/out" }
        "script" [] 0 1 (fun _ => false)).dirCreated = false := by
  constructor
  · rfl
  · rfl

/-- C4 (amended): if either `exp_name` or `outputs_path` is unset, no
output directory is created and no artifacts are written; if both are set,
the per-run per-shard directory `outputs_path/exp_name/shard_<i>` is
computed, `os.makedirs` runs exactly when that path is local (not
`gcs://`) and does not already exist, and the launching-script copy, the
pickle of every input argument, and — exactly when `do_pjit` — the device
topology (per-device id and owning process index, plus this process's
index and the process count) are written under it. -/
theorem C4_artifact_gating (cfg : MainArgs) (script : String)
    (devs : List (List Device)) (i count : Nat)
    (pathExists : String → Bool) :
    (cfg.exp_name = none ∨ cfg.outputs_path = none →
      persistRunArtifacts cfg script devs i count pathExists =
        { save_dir := none, dirCreated := false, artifacts := [] }) ∧
    (∀ e o, cfg.exp_name = some e → cfg.outputs_path = some o →
      (persistRunArtifacts cfg script devs i count pathExists).save_dir =
          some (convert_path (pathJoin (pathJoin o e) (shardComponent i))) ∧
      ((persistRunArtifacts cfg script devs i count pathExists).dirCreated
          = true ↔
        strStartsWith (convert_path (pathJoin (pathJoin o e)
            (shardComponent i))) "gcs://" = false ∧
        pathExists (convert_path (pathJoin (pathJoin o e)
            (shardComponent i))) = false) ∧
      (persistRunArtifacts cfg script devs i count pathExists).artifacts =
        [.configScript script, .inputArgsPickle cfg] ++
          if cfg.do_pjit then
            [.systemMeshPickle
              (devs.map (·.map fun x => (x.id, x.process_index))) i count]
          else []) := by
  constructor
  · intro h
    unfold persistRunArtifacts
    rcases h with h | h
    · rw [h]
    · rw [h]
      cases cfg.exp_name <;> rfl
  · intro e o he ho
    unfold persistRunArtifacts
    rw [he, ho]
    refine ⟨rfl, ?_, rfl⟩
    simp [Bool.and_eq_true]

/-- C4 witness: unset `exp_name` persists nothing; with both set and a
local path the computed directory is `out/exp/shard_0`. -/
theorem C4_artifact_gating_witness :
    persistRunArtifacts (mainDefaults none "m" "d") "s" [] 0 1
        (fun _ => false) =
      { save_dir := none, dirCreated := false, artifacts := [] } ∧
    (persistRunArtifacts
        { mainDefaults (some "exp") "m" "d" with outputs_path := some "out" }
        "s" [] 0 1 (fun _ => false)).save_dir =
      some (convert_path (pathJoin (pathJoin "out" "exp") (shardComponent 0))) :=
  ⟨(C4_artifact_gating (mainDefaults none "m" "d") "s" [] 0 1
      (fun _ => false)).1 (Or.inl rfl),
   ((C4_artifact_gating
      { mainDefaults (some "exp") "m" "d" with outputs_path := some "out" }
      "s" [] 0 1 (fun _ => false)).2 "exp" "out" rfl rfl).1⟩

/-- C5: with `checkpoint_is_sharded=true` and a set `checkpoint_path`, the
path handed to model loading is `checkpoint_path` joined with
`shard_<process_index>` (concretely `path/shard_0` and `path/shard_1` for
process indices 0 and 1); with `checkpoint_is_sharded=false` any
`checkpoint_path`, set or not, passes through unchanged. -/
theorem C5_checkpoint_resolution (p : String) (q : Option String) (i : Nat) :
    resolveCheckpointPath (some p) true i =
      .ok (some (pathJoin p (shardComponent i))) ∧
    resolveCheckpointPath (some "path") true 0 = .ok (some "path/shard_0") ∧
    resolveCheckpointPath (some "path") true 1 = .ok (some "path/shard_1") ∧
    resolveCheckpointPath q false i = .ok q :=
  ⟨rfl, rfl, rfl, rfl⟩

/-- C6: the evaluator's generation pass runs over the raw untokenized eval
prompts (`in_text`) and singleton reference lists (`out_text`) — not the
tokenized dataset — with sampling taken from `inference_do_sample`, beam
count fixed at 1, and the very `max_input_length`/`max_output_length`
bounds used to build the training dataset; the generated data is scored by
`compute_metrics`, and the evaluator returns the scalar loss together with
a report bundling the loss breakdown and the generation metrics. -/
theorem C6_generation_pass {τ L G M V : Type} (cfg : MainArgs)
    (raw : List RawExample) (eval_data : List τ) (k : Nat)
    (el : LossCallArgs τ → L) (lo : L → V) (gl : GenCallArgs → G)
    (cm : G → M) :
    (evaluatorModel cfg raw eval_data k el lo gl cm).genCall.prompts
        = raw.map (·.in_text) ∧
    (evaluatorModel cfg raw eval_data k el lo gl cm).genCall.references
        = raw.map (fun x => [x.out_text]) ∧
    (evaluatorModel cfg raw eval_data k el lo gl cm).genCall.do_sample
        = cfg.inference_do_sample ∧
    (evaluatorModel cfg raw eval_data k el lo gl cm).genCall.num_beams = 1 ∧
    (evaluatorModel cfg raw eval_data k el lo gl cm).genCall.max_input_length
        = (datasetBuildArgs cfg).max_input_length ∧
    (evaluatorModel cfg raw eval_data k el lo gl cm).genCall.max_output_length
        = (datasetBuildArgs cfg).max_output_length ∧
    (evaluatorModel cfg raw eval_data k el lo gl cm).genCall.max_length
        = cfg.max_output_length ∧
    (evaluatorModel cfg raw eval_data k el lo gl cm).result =
      (lo (el (evaluatorModel cfg raw eval_data k el lo gl cm).lossCall),
       { loss_metrics :=
           el (evaluatorModel cfg raw eval_data k el lo gl cm).lossCall
         reference_metrics :=
           cm (gl (evaluatorModel cfg raw eval_data k el lo gl cm).genCall) }) :=
  ⟨rfl, rfl, rfl, rfl, rfl, rfl, rfl, rfl⟩

/-- C7: with `do_pjit=false`, mesh construction is skipped in favor of the
no-op `nullcontext` scope, the optimizer state is `optim.init` applied
directly to the unsharded parameters, both partition specs are `None`, and
the identical `(params, param_spec)` and `(optim_state, optim_state_spec)`
values are threaded into the trainer factory and (for the former pair) the
inference factory. -/
theorem C7_non_pjit_path {P O S : Type} (params : P) (optimInit : P → O)
    (shardFn : P → (P × S) × (O × S)) (n : Nat) (a b : Int) :
    buildMeshScope false n a b = some .nullcontext ∧
    shardBootstrap (P := P) (O := O) (S := S) false params optimInit shardFn =
      { params := params, param_spec := none
        optim_state := optimInit params, optim_state_spec := none } ∧
    (trainerFactoryArgs false
        (shardBootstrap false params optimInit shardFn)).params = params ∧
    (trainerFactoryArgs false
        (shardBootstrap false params optimInit shardFn)).param_spec = none ∧
    (trainerFactoryArgs false
        (shardBootstrap false params optimInit shardFn)).optim_state
      = optimInit params ∧
    (trainerFactoryArgs false
        (shardBootstrap false params optimInit shardFn)).optim_state_spec
      = none ∧
    (inferenceFactoryArgs false
        (shardBootstrap false params optimInit shardFn)).params
      = (trainerFactoryArgs false
          (shardBootstrap false params optimInit shardFn)).params ∧
    (inferenceFactoryArgs false
        (shardBootstrap false params optimInit shardFn)).param_spec
      = (trainerFactoryArgs false
          (shardBootstrap false params optimInit shardFn)).param_spec :=
  ⟨rfl, rfl, rfl, rfl, rfl, rfl, rfl, rfl⟩

/-- C9: `checkpoint_is_sharded` and `checkpoint_path` default to `true`
and `None`; under those defaults `main` hits a `TypeError` while computing
the sharded checkpoint path, before `load_t5_model` runs; and whenever
`checkpoint_path` is set the error branch is unreachable, so a sharded
checkpoint layout effectively requires a set `checkpoint_path`. -/
theorem C9_default_checkpoint_crash (cfg : MainArgs) (i : Nat)
    (e : Option String) (m d : String) :
    ((mainDefaults e m d).checkpoint_path = none ∧
     (mainDefaults e m d).checkpoint_is_sharded = true) ∧
    (cfg.checkpoint_path = none → cfg.checkpoint_is_sharded = true →
      ∃ msg, loadModelPhase cfg i = .error msg) ∧
    (cfg.checkpoint_path ≠ none →
      ∃ args, loadModelPhase cfg i = .ok args) := by
  refine ⟨⟨rfl, rfl⟩, ?_, ?_⟩
  · intro h1 h2
    unfold loadModelPhase resolveCheckpointPath
    rw [h1, h2]
    exact ⟨_, rfl⟩
  · intro h
    cases hp : cfg.checkpoint_path with
    | none => exact absurd hp h
    | some p =>
        unfold loadModelPhase resolveCheckpointPath
        rw [hp]
        cases cfg.checkpoint_is_sharded <;> exact ⟨_, rfl⟩

/-- C9 witness: the defaults crash before loading; setting
`checkpoint_path` avoids the error branch. -/
theorem C9_default_checkpoint_crash_witness :
    (∃ msg, loadModelPhase (mainDefaults (some "e") "m" "d") 0 = .error msg) ∧
    (∃ args,
      loadModelPhase
        { mainDefaults (some "e") "m" "d" with checkpoint_path := some "c" } 0
      = .ok args) :=
  ⟨(C9_default_checkpoint_crash (mainDefaults (some "e") "m" "d") 0
      (some "e") "m" "d").2.1 rfl rfl,
   (C9_default_checkpoint_crash
      { mainDefaults (some "e") "m" "d" with checkpoint_path := some "c" } 0
      (some "e") "m" "d").2.2 (by simp)⟩

/-- C10: for every configuration, the `train_loop` call hard-codes the
checkpoint-retention policy — `save_every=None`, `save_at_end=False`,
`save_best=True`, `max_checkpoints=None` — independently of every supplied
option, so only keep-the-best retention is reachable from the invocation
surface. -/
theorem C10_retention_hard_coded (cfg : MainArgs) :
    (trainLoopCall cfg).save_every = none ∧
    (trainLoopCall cfg).save_at_end = false ∧
    (trainLoopCall cfg).save_best = true ∧
    (trainLoopCall cfg).max_checkpoints = none :=
  ⟨rfl, rfl, rfl, rfl⟩

end T5Train
